import Mathlib

/-!
Shallow embedding of the caregiver/patient coordination backend.

The repository is an Express/PostgreSQL REST server in two near-duplicate
revisions; the later revision (src/unnamed/part_000) contains the full
pairing workflow and is the one embedded here.  The `users` table carries
the pairing state: `counterpart_id` is the paired-caregiver reference
(written by the accept handler and read by every caregiver authorization
check) and `requested_caregiver_id` is the pending-request reference
(read by the pending list and by the accept check).

Each HTTP handler becomes a pure function from a database state and the
request parameters to a response (status code plus body) and the new
database state.  SQL statements are translated one by one:
`SELECT ... WHERE p` is `List.filter`, `UPDATE ... WHERE p` is a
`List.map` that rewrites matching rows together with the affected-row
count, `DELETE ... WHERE p` is a `List.filter` on the negation, and
`INSERT ... RETURNING *` appends a row whose serial id is modelled as
one more than the current number of rows.  The bcrypt hash of a password
is computed by an external collaborator, so the register handler receives
the hash it stores as an argument.
-/

namespace CareApi

/-- A row of the `users` table.  `password` holds the stored credential
hash (bcrypt output), `counterpartId` the paired caregiver reference
(`counterpart_id`) and `requestedCaregiverId` the pending pairing request
(`requested_caregiver_id`). -/
structure User where
  id : Nat
  username : String
  password : String
  name : String
  role : String
  counterpartId : Option Nat
  requestedCaregiverId : Option Nat
  deriving Repr, DecidableEq

/-- A row of the `medications` table. -/
structure Medication where
  id : Nat
  userId : Nat
  name : String
  dosage : String
  time : String
  duration : String
  isTaken : Bool
  deriving Repr, DecidableEq

/-- A row of the `appointments` table. -/
structure Appointment where
  id : Nat
  userId : Nat
  title : String
  date : String
  description : String
  deriving Repr, DecidableEq

/-- A row of the `daily_tasks` table. -/
structure DailyTask where
  id : Nat
  userId : Nat
  name : String
  location : String
  time : String
  frequency : String
  deriving Repr, DecidableEq

/-- The persistent store: the four tables the handlers touch. -/
structure Db where
  users : List User
  medications : List Medication
  appointments : List Appointment
  dailyTasks : List DailyTask
  deriving Repr, DecidableEq

/-- `SELECT id FROM users WHERE username = $1 AND role = 'caregiver'`
(caregiver resolution in the assign/request handlers). -/
def dbFindCaregiverByUsername (db : Db) (caregiverUsername : String) : List User :=
  db.users.filter (fun u => u.username == caregiverUsername && u.role == "caregiver")

/-- `SELECT * FROM users WHERE id = $1 AND requested_caregiver_id = $2`
(the check performed by `POST /caregiver/accept-patient/:patientId`). -/
def acceptCheckRows (db : Db) (patientId caregiverId : Nat) : List User :=
  db.users.filter (fun u => u.id == patientId && u.requestedCaregiverId == some caregiverId)

/-- Row transformation of
`UPDATE users SET counterpart_id = $1, requested_caregiver_id = NULL WHERE id = $2`. -/
def acceptUpdateRow (caregiverId patientId : Nat) (u : User) : User :=
  if u.id == patientId then
    { u with counterpartId := some caregiverId, requestedCaregiverId := none }
  else u

/-- The accept handler's UPDATE statement: the new table together with the
affected-row count (`rowCount`). -/
def acceptUpdate (db : Db) (caregiverId patientId : Nat) : Db × Nat :=
  ({ db with users := db.users.map (acceptUpdateRow caregiverId patientId) },
   (db.users.filter (fun u => u.id == patientId)).length)

/-- `POST /caregiver/accept-patient/:patientId` (later revision).
`caregiverId` is the authenticated caller (`req.userId`).  First a SELECT
checks that the patient requested this caregiver (otherwise 400), then a
separate UPDATE pairs the patient and clears the pending field, with a
zero-row-count guard returning 404. -/
def acceptPatient (db : Db) (caregiverId patientId : Nat) : (Nat × String) × Db :=
  if (acceptCheckRows db patientId caregiverId).isEmpty then
    ((400, "Patient did not request this caregiver"), db)
  else
    let r := acceptUpdate db caregiverId patientId
    if r.2 == 0 then
      ((404, "Patient not found or already assigned"), r.1)
    else
      ((200, "Patient assigned successfully"), r.1)

/-- Row transformation of `UPDATE users SET counterpart_id = $1 WHERE id = $2`
(the statement run by `POST /patients/assign-caregiver`). -/
def requestUpdateRow (caregiverId patientId : Nat) (u : User) : User :=
  if u.id == patientId then { u with counterpartId := some caregiverId } else u

/-- `POST /patients/assign-caregiver` (later revision): the request-caregiver
operation.  `callerId` is the authenticated caller (`req.userId`, set by the
middleware but never consulted by the handler); `userId` is the target
patient id taken from the request body, `none` modelling a value on which
`parseInt` returns NaN.  The caregiver username is resolved to a user with
role caregiver (404 if none), then the handler runs
`UPDATE users SET counterpart_id = $1 WHERE id = $2` on the target patient,
with a zero-row-count guard returning 404. -/
def requestCaregiver (db : Db) (callerId : Nat) (userId : Option Nat)
    (caregiverUsername : String) : (Nat × String) × Db :=
  match userId with
  | none => ((400, "Invalid user ID"), db)
  | some pid =>
    match dbFindCaregiverByUsername db caregiverUsername with
    | [] => ((404, "Caregiver not found"), db)
    | caregiver :: _ =>
      let db2 : Db := { db with users := db.users.map (requestUpdateRow caregiver.id pid) }
      if (db.users.filter (fun u => u.id == pid)).length == 0 then
        ((404, "Patient not found"), db2)
      else
        ((200, "Caregiver assigned successfully"), db2)

/-- `GET /caregiver/pending-patients` (later revision):
`SELECT * FROM users WHERE requested_caregiver_id = $1 AND role = 'patient'`,
with a 400 guard when the `caregiverId` query parameter is absent. -/
def pendingPatients (db : Db) (caregiverId : Option Nat) : Nat × List User :=
  match caregiverId with
  | none => (400, [])
  | some cid =>
    (200, db.users.filter (fun u => u.requestedCaregiverId == some cid && u.role == "patient"))

/-- `SELECT * FROM users WHERE id = $1 AND counterpart_id = $2`: the
authorization check run by every caregiver sub-resource handler. -/
def pairedPatientRows (db : Db) (patientId caregiverId : Nat) : List User :=
  db.users.filter (fun u => u.id == patientId && u.counterpartId == some caregiverId)

/-- `POST /caregiver/add-medication/:patientId`: 403 unless the caller is the
patient's paired caregiver, otherwise insert a medication row owned by the
patient. -/
def caregiverAddMedication (db : Db) (caregiverId patientId : Nat)
    (name dosage time duration : String) (isTaken : Bool) : (Nat × Option Medication) × Db :=
  if (pairedPatientRows db patientId caregiverId).isEmpty then
    ((403, none), db)
  else
    let m : Medication :=
      { id := db.medications.length + 1, userId := patientId,
        name := name, dosage := dosage, time := time, duration := duration, isTaken := isTaken }
    ((200, some m), { db with medications := db.medications ++ [m] })

/-- `POST /caregiver/add-daily-task/:patientId`: 403 unless the caller is the
patient's paired caregiver, otherwise insert a daily-task row owned by the
patient. -/
def caregiverAddDailyTask (db : Db) (caregiverId patientId : Nat)
    (name location time frequency : String) : (Nat × Option DailyTask) × Db :=
  if (pairedPatientRows db patientId caregiverId).isEmpty then
    ((403, none), db)
  else
    let t : DailyTask :=
      { id := db.dailyTasks.length + 1, userId := patientId,
        name := name, location := location, time := time, frequency := frequency }
    ((200, some t), { db with dailyTasks := db.dailyTasks ++ [t] })

/-- `POST /caregiver/add-appointment/:patientId`: 403 unless the caller is
the patient's paired caregiver, otherwise insert an appointment row owned by
the patient. -/
def caregiverAddAppointment (db : Db) (caregiverId patientId : Nat)
    (title date description : String) : (Nat × Option Appointment) × Db :=
  if (pairedPatientRows db patientId caregiverId).isEmpty then
    ((403, none), db)
  else
    let a : Appointment :=
      { id := db.appointments.length + 1, userId := patientId,
        title := title, date := date, description := description }
    ((200, some a), { db with appointments := db.appointments ++ [a] })

/-- `GET /caregiver/patient-medications`: 400 without a `patientId` query
parameter, 403 unless the caller is the patient's paired caregiver, otherwise
the patient's medication rows. -/
def caregiverPatientMedications (db : Db) (caregiverId : Nat)
    (patientId : Option Nat) : Nat × List Medication :=
  match patientId with
  | none => (400, [])
  | some pid =>
    if (pairedPatientRows db pid caregiverId).isEmpty then (403, [])
    else (200, db.medications.filter (fun m => m.userId == pid))

/-- `GET /caregiver/patient-daily-tasks`: 400 without a `patientId` query
parameter, 403 unless the caller is the patient's paired caregiver, otherwise
the patient's daily-task rows. -/
def caregiverPatientDailyTasks (db : Db) (caregiverId : Nat)
    (patientId : Option Nat) : Nat × List DailyTask :=
  match patientId with
  | none => (400, [])
  | some pid =>
    if (pairedPatientRows db pid caregiverId).isEmpty then (403, [])
    else (200, db.dailyTasks.filter (fun t => t.userId == pid))

/-- `POST /register`: stores the bcrypt hash of the password (computed by the
external collaborator and passed here as `hashedPassword`) and answers 201
with the full inserted row (`RETURNING *`).  A duplicate username violates
the unique constraint and surfaces through the catch branch as a 500 with no
row. -/
def register (db : Db) (username hashedPassword name role : String) :
    (Nat × Option User) × Db :=
  if db.users.any (fun u => u.username == username) then
    ((500, none), db)
  else
    let u : User :=
      { id := db.users.length + 1, username := username, password := hashedPassword,
        name := name, role := role, counterpartId := none, requestedCaregiverId := none }
    ((201, some u), { db with users := db.users ++ [u] })

/-- The `WHERE id = $1 AND user_id = $2` scope of the medication delete. -/
def ownedMed (userId medId : Nat) (m : Medication) : Bool :=
  m.id == medId && m.userId == userId

/-- The `WHERE id = $1 AND user_id = $2` scope of the daily-task update and
delete. -/
def ownedTask (userId taskId : Nat) (t : DailyTask) : Bool :=
  t.id == taskId && t.userId == userId

/-- The `SET name = $1, location = $2, time = $3, frequency = $4` part of the
daily-task update. -/
def setTaskFields (name location time frequency : String) (t : DailyTask) : DailyTask :=
  { t with name := name, location := location, time := time, frequency := frequency }

/-- `DELETE /medications/:id`:
`DELETE FROM medications WHERE id = $1 AND user_id = $2`, then a success
message unconditionally (the handler never inspects the affected-row
count). -/
def deleteMedication (db : Db) (userId medId : Nat) : (Nat × String) × Db :=
  ((200, "Medication deleted"),
   { db with medications := db.medications.filter (fun m => !(ownedMed userId medId m)) })

/-- `PUT /daily_tasks/:id`: `UPDATE daily_tasks SET ... WHERE id = $5 AND
user_id = $6 RETURNING *`; 404 when no owned row matched, otherwise the
updated row. -/
def updateDailyTask (db : Db) (userId taskId : Nat)
    (name location time frequency : String) : (Nat × Option DailyTask) × Db :=
  let db2 : Db := { db with dailyTasks := db.dailyTasks.map (fun t =>
    if ownedTask userId taskId t then setTaskFields name location time frequency t else t) }
  match db.dailyTasks.filter (fun t => ownedTask userId taskId t) with
  | [] => ((404, none), db2)
  | t :: _ => ((200, some (setTaskFields name location time frequency t)), db2)

/-- `DELETE /daily_tasks/:id`: `DELETE FROM daily_tasks WHERE id = $1 AND
user_id = $2 RETURNING *`; 404 when no owned row matched. -/
def deleteDailyTask (db : Db) (userId taskId : Nat) : (Nat × String) × Db :=
  let db2 : Db := { db with dailyTasks := db.dailyTasks.filter (fun t => !(ownedTask userId taskId t)) }
  if (db.dailyTasks.filter (fun t => ownedTask userId taskId t)).isEmpty then
    ((404, "Task not found or unauthorized"), db2)
  else
    ((200, "Task deleted successfully"), db2)

/-! ### Helper lemmas about the row-level SELECT/UPDATE translations -/

theorem mem_of_filter_id_singleton {l : List User} {pid : Nat} {u0 : User}
    (h : l.filter (fun u => u.id == pid) = [u0]) : u0 ∈ l ∧ u0.id = pid := by
  have hm : u0 ∈ l.filter (fun u => u.id == pid) := by
    rw [h]; exact List.mem_singleton.mpr rfl
  have hm2 := List.mem_filter.mp hm
  exact ⟨hm2.1, by simpa using hm2.2⟩

theorem eq_of_filter_id_singleton {l : List User} {pid : Nat} {u0 u : User}
    (h : l.filter (fun u => u.id == pid) = [u0]) (hu : u ∈ l) (hid : u.id = pid) :
    u = u0 := by
  have hm : u ∈ l.filter (fun u => u.id == pid) := List.mem_filter.mpr ⟨hu, by simp [hid]⟩
  rw [h] at hm
  simpa using hm

theorem filter_id_and_eq_nil {l : List User} {pid : Nat} {u0 : User} {q : User → Bool}
    (h : l.filter (fun u => u.id == pid) = [u0]) (hq : q u0 = false) :
    l.filter (fun u => u.id == pid && q u) = [] := by
  rw [List.filter_eq_nil_iff]
  intro u hu hc
  rw [Bool.and_eq_true] at hc
  have hid : u.id = pid := by simpa using hc.1
  have heq : u = u0 := eq_of_filter_id_singleton h hu hid
  rw [heq, hq] at hc
  exact Bool.noConfusion hc.2

theorem filter_id_and_eq_singleton {pid : Nat} {q : User → Bool} {u0 : User}
    (hq : q u0 = true) :
    ∀ {l : List User}, l.filter (fun u => u.id == pid) = [u0] →
      l.filter (fun u => u.id == pid && q u) = [u0] := by
  intro l
  induction l with
  | nil => intro h; simp at h
  | cons a t ih =>
    intro h
    by_cases ha : a.id = pid
    · rw [List.filter_cons_of_pos (by simp [ha])] at h
      injection h with h1 h2
      subst h1
      rw [List.filter_cons_of_pos (by simp [ha, hq])]
      have ht : t.filter (fun u => u.id == pid && q u) = [] := by
        rw [List.filter_eq_nil_iff]
        intro u hu hc
        rw [Bool.and_eq_true] at hc
        have hm : u ∈ t.filter (fun u => u.id == pid) := List.mem_filter.mpr ⟨hu, hc.1⟩
        rw [h2] at hm
        simp at hm
      rw [ht]
    · rw [List.filter_cons_of_neg (by simp [ha])] at h
      rw [List.filter_cons_of_neg (by simp [ha])]
      exact ih h

theorem filter_id_map {pid : Nat} {f : User → User} (hf : ∀ u, (f u).id = u.id) :
    ∀ l : List User,
      (l.map f).filter (fun u => u.id == pid) = (l.filter (fun u => u.id == pid)).map f := by
  intro l
  induction l with
  | nil => rfl
  | cons a t ih =>
    by_cases ha : a.id = pid
    · rw [List.map_cons, List.filter_cons_of_pos (by simp [hf a, ha]),
        List.filter_cons_of_pos (by simp [ha]), List.map_cons, ih]
    · rw [List.map_cons, List.filter_cons_of_neg (by simp [hf a, ha]),
        List.filter_cons_of_neg (by simp [ha]), ih]

theorem acceptUpdateRow_id (c pid : Nat) (u : User) :
    (acceptUpdateRow c pid u).id = u.id := by
  unfold acceptUpdateRow; split <;> rfl

theorem requestUpdateRow_id (c pid : Nat) (u : User) :
    (requestUpdateRow c pid u).id = u.id := by
  unfold requestUpdateRow; split <;> rfl

/-! ### C1 -/

/-- C1: on the later revision, `acceptPatient caregiverId patientId` succeeds
(200, and then pairs the patient and clears the pending field) exactly when
the patient row's `requested_caregiver_id` equals `caregiverId`; in every
other case it answers 400 "Patient did not request this caregiver" and
returns the store unchanged, so both `counterpart_id` and
`requested_caregiver_id` keep their values. -/
theorem acceptPatient_pending_iff (db : Db) (c pid : Nat) (u0 : User)
    (hu : db.users.filter (fun u => u.id == pid) = [u0]) :
    (u0.requestedCaregiverId = some c →
      acceptPatient db c pid =
        ((200, "Patient assigned successfully"),
         { db with users := db.users.map (acceptUpdateRow c pid) }) ∧
      (db.users.map (acceptUpdateRow c pid)).filter (fun u => u.id == pid) =
        [{ u0 with counterpartId := some c, requestedCaregiverId := none }]) ∧
    (u0.requestedCaregiverId ≠ some c →
      acceptPatient db c pid = ((400, "Patient did not request this caregiver"), db)) := by
  have hid : u0.id = pid := (mem_of_filter_id_singleton hu).2
  constructor
  · intro hreq
    have hcheck : acceptCheckRows db pid c = [u0] :=
      filter_id_and_eq_singleton (q := fun u => u.requestedCaregiverId == some c)
        (by simp [hreq]) hu
    constructor
    · simp [acceptPatient, acceptUpdate, hcheck, hu]
    · rw [filter_id_map (acceptUpdateRow_id c pid) db.users, hu]
      simp [acceptUpdateRow, hid]
  · intro hreq
    have hcheck : acceptCheckRows db pid c = [] :=
      filter_id_and_eq_nil hu (by simp [hreq])
    simp [acceptPatient, hcheck]

def dbC1 : Db :=
  { users := [{ id := 1, username := "pat", password := "h1", name := "Pat",
                role := "patient", counterpartId := none, requestedCaregiverId := some 7 }],
    medications := [], appointments := [], dailyTasks := [] }

def patC1 : User :=
  { id := 1, username := "pat", password := "h1", name := "Pat",
    role := "patient", counterpartId := none, requestedCaregiverId := some 7 }

/-- Witness for C1: a patient whose pending request names caregiver 7 is
accepted by caregiver 7. -/
theorem acceptPatient_pending_iff_witness :
    acceptPatient dbC1 7 1 =
      ((200, "Patient assigned successfully"),
       { dbC1 with users := dbC1.users.map (acceptUpdateRow 7 1) }) :=
  ((acceptPatient_pending_iff dbC1 7 1 patC1 (by decide)).1 rfl).1

/-! ### C2 -/

/-- C2: on the later revision, the pending-patients listing answers 200 and
returns exactly the users with role patient whose `requested_caregiver_id`
equals the given caregiver id — in particular never a merely unpaired
patient (pending `none`) and never a patient whose pending field names a
different caregiver. -/
theorem pendingPatients_exactly_requesters (db : Db) (cid : Nat) :
    (pendingPatients db (some cid)).1 = 200 ∧
    ∀ u : User, u ∈ (pendingPatients db (some cid)).2 ↔
      u ∈ db.users ∧ u.role = "patient" ∧ u.requestedCaregiverId = some cid := by
  refine ⟨rfl, fun u => ?_⟩
  simp only [pendingPatients, List.mem_filter, Bool.and_eq_true, beq_iff_eq]
  tauto

/-! ### C3 -/

/-- C3: when no user row with the target patient id has `counterpart_id`
equal to the calling caregiver — covering an unpaired patient, a patient
paired to a different caregiver, and a nonexistent patient — every caregiver
sub-resource handler answers 403 with an empty body and leaves the store
untouched: no insert and no select on the patient's rows is executed. -/
theorem caregiverGuard_denies_unpaired (db : Db) (c pid : Nat)
    (h : ∀ u ∈ db.users, u.id = pid → u.counterpartId ≠ some c)
    (nm dos tm dur loc freq title dt desc : String) (tk : Bool) :
    caregiverAddMedication db c pid nm dos tm dur tk = ((403, none), db) ∧
    caregiverAddDailyTask db c pid nm loc tm freq = ((403, none), db) ∧
    caregiverAddAppointment db c pid title dt desc = ((403, none), db) ∧
    caregiverPatientMedications db c (some pid) = (403, []) ∧
    caregiverPatientDailyTasks db c (some pid) = (403, []) := by
  have hrows : pairedPatientRows db pid c = [] := by
    rw [pairedPatientRows, List.filter_eq_nil_iff]
    intro u hu hc
    rw [Bool.and_eq_true] at hc
    exact h u hu (by simpa using hc.1) (by simpa using hc.2)
  simp [caregiverAddMedication, caregiverAddDailyTask, caregiverAddAppointment,
    caregiverPatientMedications, caregiverPatientDailyTasks, hrows]

def dbC3 : Db :=
  { users := [{ id := 1, username := "pat", password := "h1", name := "Pat",
                role := "patient", counterpartId := some 9, requestedCaregiverId := none }],
    medications := [], appointments := [], dailyTasks := [] }

/-- Witness for C3: caregiver 7 is denied on a patient paired to caregiver 9. -/
theorem caregiverGuard_denies_unpaired_witness :
    caregiverAddMedication dbC3 7 1 "aspirin" "1x" "08:00" "7d" false = ((403, none), dbC3) ∧
    caregiverAddDailyTask dbC3 7 1 "aspirin" "home" "08:00" "daily" = ((403, none), dbC3) ∧
    caregiverAddAppointment dbC3 7 1 "visit" "2025-01-01" "checkup" = ((403, none), dbC3) ∧
    caregiverPatientMedications dbC3 7 (some 1) = (403, []) ∧
    caregiverPatientDailyTasks dbC3 7 (some 1) = (403, []) :=
  caregiverGuard_denies_unpaired dbC3 7 1 (by decide)
    "aspirin" "1x" "08:00" "7d" "home" "daily" "visit" "2025-01-01" "checkup" false

/-! ### C4 and C5 -/

def aliceC4 : User :=
  { id := 7, username := "alice", password := "h7", name := "Alice",
    role := "caregiver", counterpartId := none, requestedCaregiverId := none }

def patC4 : User :=
  { id := 1, username := "bob", password := "h1", name := "Bob",
    role := "patient", counterpartId := none, requestedCaregiverId := none }

def dbC4 : Db :=
  { users := [aliceC4, patC4], medications := [], appointments := [], dailyTasks := [] }

/-- C4, evaluated at the failing input: patient 1 requests caregiver "alice"
(role caregiver, id 7).  The handler resolves the username and reports
success, but the UPDATE it runs writes `counterpart_id` — the paired
field — and leaves the pending field `requested_caregiver_id` untouched
(still `none`), while the spec requires the pending field, and not
`pairedCaregiverId`, to be set. -/
theorem requestCaregiver_sets_paired_not_pending :
    (requestCaregiver dbC4 1 (some 1) "alice").1 = (200, "Caregiver assigned successfully") ∧
    ((requestCaregiver dbC4 1 (some 1) "alice").2.users.filter (fun u => u.id == 1)).map
        (fun u => (u.counterpartId, u.requestedCaregiverId)) = [(some 7, none)] := by
  decide

/-- C5, evaluated at the failing input: after patient 1 requests "alice"
(id 7), caregiver 7's accept fails with 400 "Patient did not request this
caregiver" and changes nothing, because the request step never wrote the
pending field that the accept check reads — the two-step workflow cannot
reach the `Paired` state through an accepted request. -/
theorem requestThenAccept_fails :
    (acceptPatient (requestCaregiver dbC4 1 (some 1) "alice").2 7 1).1 =
      (400, "Patient did not request this caregiver") ∧
    (acceptPatient (requestCaregiver dbC4 1 (some 1) "alice").2 7 1).2 =
      (requestCaregiver dbC4 1 (some 1) "alice").2 := by
  decide

/-! ### C6 -/

def dbC6 : Db := { users := [], medications := [], appointments := [], dailyTasks := [] }

def dbC6P : Db :=
  { users := [{ id := 1, username := "pat", password := "hash123", name := "Pat",
                role := "patient", counterpartId := none, requestedCaregiverId := some 7 }],
    medications := [], appointments := [], dailyTasks := [] }

/-- C6, evaluated at the failing input: registering a user stores the bcrypt
hash and answers with the inserted row verbatim (`RETURNING *`), so the
response body carries exactly the stored credential hash; the
pending-patients listing likewise returns full `SELECT * FROM users` rows,
hash included. -/
theorem responses_expose_credential_hash :
    ((register dbC6 "kay" "hash123" "Kay" "patient").1.2).map (fun u => u.password) =
      some "hash123" ∧
    ((register dbC6 "kay" "hash123" "Kay" "patient").2.users).map (fun u => u.password) =
      ["hash123"] ∧
    ((pendingPatients dbC6P (some 7)).2).map (fun u => u.password) = ["hash123"] := by
  decide

/-! ### C9 -/

/-- C9: the request-caregiver handler reads the target patient id from the
request payload and never consults the authenticated caller identity: its
result is literally the same function of the store for every caller, and for
any caller — whether or not it equals the target patient — it answers 200 and
rewrites the target patient's pairing state whenever the caregiver username
resolves and the patient row exists.  No hypothesis relates `caller` to
`pid`, to any row of the store, or to any role. -/
theorem requestCaregiver_ignores_caller (db : Db) (caller caller2 pid : Nat)
    (cu : String) (cg u0 : User) (rest : List User)
    (hcg : dbFindCaregiverByUsername db cu = cg :: rest)
    (hu : db.users.filter (fun u => u.id == pid) = [u0]) :
    requestCaregiver db caller (some pid) cu = requestCaregiver db caller2 (some pid) cu ∧
    (requestCaregiver db caller (some pid) cu).1 = (200, "Caregiver assigned successfully") ∧
    ((requestCaregiver db caller (some pid) cu).2.users.filter (fun u => u.id == pid)).map
        (fun u => u.counterpartId) = [some cg.id] := by
  have hid : u0.id = pid := (mem_of_filter_id_singleton hu).2
  have hres : (requestCaregiver db caller (some pid) cu).2 =
      { db with users := db.users.map (requestUpdateRow cg.id pid) } := by
    simp [requestCaregiver, hcg, hu]
  refine ⟨rfl, by simp [requestCaregiver, hcg, hu], ?_⟩
  rw [hres]
  show ((db.users.map (requestUpdateRow cg.id pid)).filter (fun u => u.id == pid)).map
      (fun u => u.counterpartId) = [some cg.id]
  rw [filter_id_map (requestUpdateRow_id cg.id pid) db.users, hu]
  simp [requestUpdateRow, hid]

def aliceC9 : User :=
  { id := 7, username := "alice", password := "h7", name := "Alice",
    role := "caregiver", counterpartId := none, requestedCaregiverId := none }

def patC9 : User :=
  { id := 1, username := "bob", password := "h1", name := "Bob",
    role := "patient", counterpartId := none, requestedCaregiverId := none }

def dbC9 : Db :=
  { users := [aliceC9, patC9], medications := [], appointments := [], dailyTasks := [] }

/-- Witness for C9: caller 42 — a user id that is not even a row of the
store, and certainly not patient 1 — reassigns patient 1's caregiver. -/
theorem requestCaregiver_ignores_caller_witness :
    requestCaregiver dbC9 42 (some 1) "alice" = requestCaregiver dbC9 1 (some 1) "alice" ∧
    (requestCaregiver dbC9 42 (some 1) "alice").1 = (200, "Caregiver assigned successfully") ∧
    ((requestCaregiver dbC9 42 (some 1) "alice").2.users.filter (fun u => u.id == 1)).map
        (fun u => u.counterpartId) = [some aliceC9.id] :=
  requestCaregiver_ignores_caller dbC9 42 1 1 "alice" aliceC9 patC9 [] (by decide) (by decide)

/-! ### C10 -/

/-- C10: the accept handler's success condition carries no role checks: for
any caller id named by the target row's pending field the operation answers
200 and pairs the row to the caller, with no hypothesis that the caller be a
caregiver (or exist as a row at all) nor that the target row have role
patient. -/
theorem acceptPatient_no_role_check (db : Db) (c pid : Nat) (u0 : User)
    (hu : db.users.filter (fun u => u.id == pid) = [u0])
    (hreq : u0.requestedCaregiverId = some c) :
    (acceptPatient db c pid).1 = (200, "Patient assigned successfully") ∧
    ((acceptPatient db c pid).2.users.filter (fun u => u.id == pid)).map
        (fun u => (u.counterpartId, u.requestedCaregiverId)) = [(some c, none)] := by
  have hid : u0.id = pid := (mem_of_filter_id_singleton hu).2
  have hcheck : acceptCheckRows db pid c = [u0] :=
    filter_id_and_eq_singleton (q := fun u => u.requestedCaregiverId == some c)
      (by simp [hreq]) hu
  have hres : acceptPatient db c pid =
      ((200, "Patient assigned successfully"),
       { db with users := db.users.map (acceptUpdateRow c pid) }) := by
    simp [acceptPatient, acceptUpdate, hcheck, hu]
  rw [hres]
  refine ⟨rfl, ?_⟩
  show ((db.users.map (acceptUpdateRow c pid)).filter (fun u => u.id == pid)).map
      (fun u => (u.counterpartId, u.requestedCaregiverId)) = [(some c, none)]
  rw [filter_id_map (acceptUpdateRow_id c pid) db.users, hu]
  simp [acceptUpdateRow, hid]

def cgC10 : User :=
  { id := 5, username := "carol", password := "h5", name := "Carol",
    role := "caregiver", counterpartId := none, requestedCaregiverId := some 2 }

def patC10 : User :=
  { id := 2, username := "dora", password := "h2", name := "Dora",
    role := "patient", counterpartId := none, requestedCaregiverId := none }

def dbC10 : Db :=
  { users := [cgC10, patC10], medications := [], appointments := [], dailyTasks := [] }

/-- Witness for C10 at a role-swapped input: caller 2 has role patient and
the target row 5 has role caregiver, yet the accept succeeds and pairs the
caregiver row to the patient caller. -/
theorem acceptPatient_no_role_check_witness :
    (acceptPatient dbC10 2 5).1 = (200, "Patient assigned successfully") ∧
    ((acceptPatient dbC10 2 5).2.users.filter (fun u => u.id == 5)).map
        (fun u => (u.counterpartId, u.requestedCaregiverId)) = [(some 2, none)] :=
  acceptPatient_no_role_check dbC10 2 5 cgC10 (by decide) rfl

/-! ### C7 -/

theorem filter_neg_eq_self_of_filter_eq_nil {α : Type} {p : α → Bool} :
    ∀ l : List α, l.filter p = [] → l.filter (fun a => !(p a)) = l := by
  intro l
  induction l with
  | nil => intro _; rfl
  | cons a t ih =>
    intro h
    rw [List.filter_cons] at h
    by_cases hp : p a = true
    · rw [if_pos hp] at h; simp at h
    · rw [if_neg hp] at h
      rw [List.filter_cons_of_pos (by simp [hp]), ih h]

theorem map_ite_eq_self_of_filter_eq_nil {α : Type} {p : α → Bool} {f : α → α} :
    ∀ l : List α, l.filter p = [] → l.map (fun a => if p a then f a else a) = l := by
  intro l
  induction l with
  | nil => intro _; rfl
  | cons a t ih =>
    intro h
    rw [List.filter_cons] at h
    by_cases hp : p a = true
    · rw [if_pos hp] at h; simp at h
    · rw [if_neg hp] at h
      rw [List.map_cons, if_neg hp, ih h]

def medC7 : Medication :=
  { id := 1, userId := 2, name := "aspirin", dosage := "1x",
    time := "08:00", duration := "7d", isTaken := false }

def dbC7 : Db :=
  { users := [], medications := [medC7], appointments := [], dailyTasks := [] }

/-- C7 counterexample: user 1 deletes medication id 1, which is owned by
user 2.  No owned row matches and nothing changes, yet the handler reports
success — 200 "Medication deleted" — instead of the "not found" the claim
requires for every unmatched sub-resource update or delete. -/
theorem deleteMedication_silent_success :
    deleteMedication dbC7 1 1 = ((200, "Medication deleted"), dbC7) := by
  decide

/-- C7 amended: the daily-task update and delete behave as the claim states —
an unmatched `(id, userId)` changes nothing and reports 404 — and no
operation ever touches a row owned by a different user; the medication
delete, however, reports success unconditionally (never "not found"), while
still changing nothing when no owned row matches. -/
theorem ownedScope_spec (db : Db) (uid rid : Nat) (nm loc tm fr : String) :
    (db.dailyTasks.filter (fun t => ownedTask uid rid t) = [] →
      updateDailyTask db uid rid nm loc tm fr = ((404, none), db) ∧
      deleteDailyTask db uid rid = ((404, "Task not found or unauthorized"), db)) ∧
    (deleteMedication db uid rid).1 = (200, "Medication deleted") ∧
    (db.medications.filter (fun m => ownedMed uid rid m) = [] →
      deleteMedication db uid rid = ((200, "Medication deleted"), db)) ∧
    (∀ m ∈ db.medications, m.userId ≠ uid →
      m ∈ (deleteMedication db uid rid).2.medications) ∧
    (∀ t ∈ db.dailyTasks, t.userId ≠ uid →
      t ∈ (updateDailyTask db uid rid nm loc tm fr).2.dailyTasks ∧
      t ∈ (deleteDailyTask db uid rid).2.dailyTasks) := by
  refine ⟨fun h => ?_, rfl, fun h => ?_, fun m hm hne => ?_, fun t ht hne => ⟨?_, ?_⟩⟩
  · have hmap := map_ite_eq_self_of_filter_eq_nil (p := ownedTask uid rid)
      (f := setTaskFields nm loc tm fr) db.dailyTasks h
    have hfil := filter_neg_eq_self_of_filter_eq_nil (p := ownedTask uid rid) db.dailyTasks h
    constructor
    · simp [updateDailyTask, h, hmap]
    · simp [deleteDailyTask, h, hfil]
  · have hfil := filter_neg_eq_self_of_filter_eq_nil (p := ownedMed uid rid) db.medications h
    simp [deleteMedication, hfil]
  · exact List.mem_filter.mpr ⟨hm, by simp [ownedMed, hne]⟩
  · have h2 : (updateDailyTask db uid rid nm loc tm fr).2 =
        { db with dailyTasks := db.dailyTasks.map (fun t =>
          if ownedTask uid rid t then setTaskFields nm loc tm fr t else t) } := by
      unfold updateDailyTask
      split <;> rfl
    rw [h2]
    have hgt : (if ownedTask uid rid t then setTaskFields nm loc tm fr t else t) = t := by
      simp [ownedTask, hne]
    have hmem : (if ownedTask uid rid t then setTaskFields nm loc tm fr t else t) ∈
        db.dailyTasks.map (fun t =>
          if ownedTask uid rid t then setTaskFields nm loc tm fr t else t) :=
      List.mem_map_of_mem _ ht
    rw [hgt] at hmem
    exact hmem
  · have h3 : (deleteDailyTask db uid rid).2 =
        { db with dailyTasks := db.dailyTasks.filter (fun t => !(ownedTask uid rid t)) } := by
      unfold deleteDailyTask
      split <;> rfl
    rw [h3]
    exact List.mem_filter.mpr ⟨ht, by simp [ownedTask, hne]⟩

/-- Witness for C7 (amended): on a store whose only rows belong to user 2,
user 1's unmatched daily-task update and delete answer 404 and change
nothing, while the unmatched medication delete still answers success. -/
theorem ownedScope_spec_witness :
    updateDailyTask dbC7 1 1 "a" "b" "c" "d" = ((404, none), dbC7) ∧
    deleteDailyTask dbC7 1 1 = ((404, "Task not found or unauthorized"), dbC7) ∧
    deleteMedication dbC7 1 1 = ((200, "Medication deleted"), dbC7) :=
  ⟨((ownedScope_spec dbC7 1 1 "a" "b" "c" "d").1 (by decide)).1,
   ((ownedScope_spec dbC7 1 1 "a" "b" "c" "d").1 (by decide)).2,
   (ownedScope_spec dbC7 1 1 "a" "b" "c" "d").2.2.1 (by decide)⟩

/-! ### C8 -/

/-- Progress of one in-flight accept request: before its SELECT check, after
a passed check with the UPDATE still to run, or finished with an HTTP
status. -/
inductive TState where
  | start
  | checked
  | finished (status : Nat)
  deriving Repr, DecidableEq

/-- One store round trip of the accept handler: the SELECT check (answering
400 at once when it fails), then the separate UPDATE with its zero-row-count
guard. -/
def acceptStep (caregiverId patientId : Nat) : TState × Db → TState × Db
  | (.start, db) =>
    if (acceptCheckRows db patientId caregiverId).isEmpty then (.finished 400, db)
    else (.checked, db)
  | (.checked, db) =>
    let r := acceptUpdate db caregiverId patientId
    (if r.2 == 0 then .finished 404 else .finished 200, r.1)
  | (.finished s, db) => (.finished s, db)

/-- Two concurrent accept requests — thread `a` for caregiver `c1`, thread
`b` for caregiver `c2`, same patient — over one shared store. -/
structure RaceState where
  a : TState
  b : TState
  db : Db
  deriving Repr, DecidableEq

/-- Run one store round trip of thread `a` (`who = false`) or `b`. -/
def raceStep (c1 c2 patientId : Nat) (s : RaceState) (who : Bool) : RaceState :=
  if who then
    let r := acceptStep c2 patientId (s.b, s.db)
    { s with b := r.1, db := r.2 }
  else
    let r := acceptStep c1 patientId (s.a, s.db)
    { s with a := r.1, db := r.2 }

/-- Run a whole interleaving, one round trip per schedule entry. -/
def raceRun (c1 c2 patientId : Nat) (s : RaceState) : List Bool → RaceState
  | [] => s
  | w :: ws => raceRun c1 c2 patientId (raceStep c1 c2 patientId s w) ws

/-- Reachable configurations of the race when the patient's pending request
names `c1`: either nobody has written (store unchanged, thread `a` at or
before its check, thread `b` unstarted or already refused), or thread `a`
has run its update (store paired to `c1`, `a` succeeded, `b` unstarted or
refused). -/
def raceInv (c1 patientId : Nat) (db0 : Db) (s : RaceState) : Prop :=
  (s.db = db0 ∧ (s.a = .start ∨ s.a = .checked) ∧
    (s.b = .start ∨ s.b = .finished 400)) ∨
  (s.db = (acceptUpdate db0 c1 patientId).1 ∧ s.a = .finished 200 ∧
    (s.b = .start ∨ s.b = .finished 400))

theorem raceInv_step (c1 c2 pid : Nat) (db0 : Db) (u0 : User)
    (hne : c1 ≠ c2)
    (hu : db0.users.filter (fun u => u.id == pid) = [u0])
    (hreq : u0.requestedCaregiverId = some c1) :
    ∀ (s : RaceState) (who : Bool), raceInv c1 pid db0 s →
      raceInv c1 pid db0 (raceStep c1 c2 pid s who) := by
  have hid : u0.id = pid := (mem_of_filter_id_singleton hu).2
  have hchk1 : acceptCheckRows db0 pid c1 = [u0] :=
    filter_id_and_eq_singleton (q := fun u => u.requestedCaregiverId == some c1)
      (by simp [hreq]) hu
  have hchk2 : acceptCheckRows db0 pid c2 = [] :=
    filter_id_and_eq_nil hu (by rw [hreq, beq_eq_false_iff_ne]; simp [hne])
  have hcount : (db0.users.filter (fun u => u.id == pid)).length = 1 := by
    rw [hu]; rfl
  have hUusers : (acceptUpdate db0 c1 pid).1.users.filter (fun u => u.id == pid) =
      [acceptUpdateRow c1 pid u0] := by
    show (db0.users.map (acceptUpdateRow c1 pid)).filter (fun u => u.id == pid) = _
    rw [filter_id_map (acceptUpdateRow_id c1 pid) db0.users, hu]
    rfl
  have hchk4 : acceptCheckRows (acceptUpdate db0 c1 pid).1 pid c2 = [] :=
    filter_id_and_eq_nil hUusers (by simp [acceptUpdateRow, hid])
  rintro ⟨sa, sb, sdb⟩ who hs
  rcases hs with ⟨hdb, ha, hb⟩ | ⟨hdb, ha, hb⟩
  · simp only at hdb ha hb
    rw [hdb]
    cases who with
    | false =>
      rcases ha with rfl | rfl
      · have hstep : raceStep c1 c2 pid ⟨.start, sb, db0⟩ false = ⟨.checked, sb, db0⟩ := by
          simp [raceStep, acceptStep, hchk1]
        rw [hstep]
        exact Or.inl ⟨rfl, Or.inr rfl, hb⟩
      · have hstep : raceStep c1 c2 pid ⟨.checked, sb, db0⟩ false =
            ⟨.finished 200, sb, (acceptUpdate db0 c1 pid).1⟩ := by
          simp [raceStep, acceptStep, acceptUpdate, hcount]
        rw [hstep]
        exact Or.inr ⟨rfl, rfl, hb⟩
    | true =>
      rcases hb with rfl | rfl
      · have hstep : raceStep c1 c2 pid ⟨sa, .start, db0⟩ true =
            ⟨sa, .finished 400, db0⟩ := by
          simp [raceStep, acceptStep, hchk2]
        rw [hstep]
        exact Or.inl ⟨rfl, ha, Or.inr rfl⟩
      · have hstep : raceStep c1 c2 pid ⟨sa, .finished 400, db0⟩ true =
            ⟨sa, .finished 400, db0⟩ := by
          simp [raceStep, acceptStep]
        rw [hstep]
        exact Or.inl ⟨rfl, ha, Or.inr rfl⟩
  · simp only at hdb ha hb
    rw [hdb]
    subst ha
    cases who with
    | false =>
      have hstep : raceStep c1 c2 pid ⟨.finished 200, sb, (acceptUpdate db0 c1 pid).1⟩ false =
          ⟨.finished 200, sb, (acceptUpdate db0 c1 pid).1⟩ := by
        simp [raceStep, acceptStep]
      rw [hstep]
      exact Or.inr ⟨rfl, rfl, hb⟩
    | true =>
      rcases hb with rfl | rfl
      · have hstep : raceStep c1 c2 pid
            ⟨.finished 200, .start, (acceptUpdate db0 c1 pid).1⟩ true =
            ⟨.finished 200, .finished 400, (acceptUpdate db0 c1 pid).1⟩ := by
          simp [raceStep, acceptStep, hchk4]
        rw [hstep]
        exact Or.inr ⟨rfl, rfl, Or.inr rfl⟩
      · have hstep : raceStep c1 c2 pid
            ⟨.finished 200, .finished 400, (acceptUpdate db0 c1 pid).1⟩ true =
            ⟨.finished 200, .finished 400, (acceptUpdate db0 c1 pid).1⟩ := by
          simp [raceStep, acceptStep]
        rw [hstep]
        exact Or.inr ⟨rfl, rfl, Or.inr rfl⟩

theorem raceInv_run (c1 c2 pid : Nat) (db0 : Db) (u0 : User)
    (hne : c1 ≠ c2)
    (hu : db0.users.filter (fun u => u.id == pid) = [u0])
    (hreq : u0.requestedCaregiverId = some c1) :
    ∀ (sched : List Bool) (s : RaceState), raceInv c1 pid db0 s →
      raceInv c1 pid db0 (raceRun c1 c2 pid s sched) := by
  intro sched
  induction sched with
  | nil => intro s hs; exact hs
  | cons w ws ih =>
    intro s hs
    exact ih _ (raceInv_step c1 c2 pid db0 u0 hne hu hreq s w hs)

def patC8 : User :=
  { id := 1, username := "pat", password := "h1", name := "Pat",
    role := "patient", counterpartId := none, requestedCaregiverId := none }

def dbC8 : Db :=
  { users := [patC8], medications := [], appointments := [], dailyTasks := [] }

/-- C8 counterexample: patient 1 has no pending request at all, yet the
accept handler's UPDATE statement, run on its own, affects the row
(row count 1) and pairs it to caregiver 7 — the update carries no condition
on the pending-request value.  The gating is a separate prior SELECT (which
here answers 400), so the operation is a read followed by a write, not one
atomic conditioned update. -/
theorem acceptUpdate_not_conditioned :
    (acceptUpdate dbC8 7 1).2 = 1 ∧
    ((acceptUpdate dbC8 7 1).1.users.map (fun u => u.counterpartId)) = [some 7] ∧
    (acceptPatient dbC8 7 1).1 = (400, "Patient did not request this caregiver") := by
  decide

/-- C8 amended: the accept handler is a SELECT check followed by a separate
UPDATE that is not conditioned on the pending value (it affects the patient
row — count 1 — for any caregiver id).  Still, for two different caregivers
racing to accept a patient whose pending request names `c1`, in every
interleaving thread `c1` can only be running or succeed with 200 and thread
`c2` can only be unstarted or fail — with 400 from the failed check, never
by observing zero rows affected. -/
theorem acceptPatient_race (c1 c2 pid : Nat) (db : Db) (u0 : User)
    (hne : c1 ≠ c2)
    (hu : db.users.filter (fun u => u.id == pid) = [u0])
    (hreq : u0.requestedCaregiverId = some c1) :
    (acceptUpdate db c2 pid).2 = 1 ∧
    ∀ sched : List Bool,
      ((raceRun c1 c2 pid ⟨.start, .start, db⟩ sched).a = .start ∨
       (raceRun c1 c2 pid ⟨.start, .start, db⟩ sched).a = .checked ∨
       (raceRun c1 c2 pid ⟨.start, .start, db⟩ sched).a = .finished 200) ∧
      ((raceRun c1 c2 pid ⟨.start, .start, db⟩ sched).b = .start ∨
       (raceRun c1 c2 pid ⟨.start, .start, db⟩ sched).b = .finished 400) := by
  constructor
  · show (db.users.filter (fun u => u.id == pid)).length = 1
    rw [hu]; rfl
  · intro sched
    have h := raceInv_run c1 c2 pid db u0 hne hu hreq sched ⟨.start, .start, db⟩
      (Or.inl ⟨rfl, Or.inl rfl, Or.inl rfl⟩)
    rcases h with ⟨_, ha, hb⟩ | ⟨_, ha, hb⟩
    · exact ⟨ha.imp id Or.inl, hb⟩
    · exact ⟨Or.inr (Or.inr ha), hb⟩

def patRace : User :=
  { id := 1, username := "pat", password := "h1", name := "Pat",
    role := "patient", counterpartId := none, requestedCaregiverId := some 7 }

def dbRace : Db :=
  { users := [patRace], medications := [], appointments := [], dailyTasks := [] }

/-- Witness for C8 (amended) at caregivers 7 and 9 racing over patient 1
(pending request naming 7), on the interleaving check(a), check(b),
update(a). -/
theorem acceptPatient_race_witness :
    (acceptUpdate dbRace 9 1).2 = 1 ∧
    ((raceRun 7 9 1 ⟨.start, .start, dbRace⟩ [false, true, false]).a = .start ∨
     (raceRun 7 9 1 ⟨.start, .start, dbRace⟩ [false, true, false]).a = .checked ∨
     (raceRun 7 9 1 ⟨.start, .start, dbRace⟩ [false, true, false]).a = .finished 200) ∧
    ((raceRun 7 9 1 ⟨.start, .start, dbRace⟩ [false, true, false]).b = .start ∨
     (raceRun 7 9 1 ⟨.start, .start, dbRace⟩ [false, true, false]).b = .finished 400) :=
  ⟨(acceptPatient_race 7 9 1 dbRace patRace (by decide) (by decide) rfl).1,
   (acceptPatient_race 7 9 1 dbRace patRace (by decide) (by decide) rfl).2 [false, true, false]⟩

end CareApi
